import Mathlib

/-!
# Verification of the SwiftCODE game-lifecycle core (`src/models.js`)

A shallow embedding of the game lifecycle state machine, membership
coordination and statistics aggregation of `src/models.js`, together with
theorems settling the specification's claims about them.

Modelling conventions:
* Times are milliseconds as `Int`; JS numbers used in statistics are `ℚ`
  (exact arithmetic).
* A JS `undefined` field is `Option.none`; the JS idiom `x || Infinity`
  is `orInf` (both `undefined` and `0` are falsy), with `none` standing
  for `Infinity` in `jsMin`.
* Mongoose `ObjectId`s and their hex strings are indexed by `Nat`. Where
  the source converts before comparing (`toHexString` in `getJoinError`)
  plain `Nat` equality is used; where it strictly compares an `ObjectId`
  against a string with no conversion (the `gamesWon` guard, models.js
  line 219) the runtime type mismatch is modelled by `JsVal`, whose
  equality across the two shapes never holds.
* The per-lobby timeout dictionary `gameTimeouts` is a list keyed by game
  id holding the scheduled delay and what the armed callback does.
* Persistence `save` calls are modelled by explicit failure flags where a
  claim depends on them; event-bus publications are not modelled (no
  claim mentions them).
-/

namespace SwiftCode

/-! ## Constants (models.js lines 14-24), wait times converted to ms -/

def GAME_TIME_JOIN_CUTOFF_MS : Int := 5000

def GAME_SINGLE_PLAYER_WAIT_TIME_MS : Int := 5000

def GAME_MULTI_PLAYER_WAIT_TIME_MS : Int := 20000

def GAME_DEFAULT_MAX_PLAYERS : Nat := 4

def CHARACTERS_PER_WORD : ℚ := 5

def MILLISECONDS_PER_MINUTE : ℚ := 60000

def STATISTICS_VALIDATION_THRESHOLD_MS : ℚ := 100

/-! ## JS numeric idioms -/

/-- JS `x || Infinity`: `undefined` and `0` are falsy and become
`Infinity`; `Infinity` is represented as `none` in the result. -/
def orInf (x : Option ℚ) : Option ℚ :=
  match x with
  | none => none
  | some q => if q = 0 then none else some q

/-- JS `Math.min` over numbers-or-`Infinity`, `none` standing for
`Infinity`. -/
def jsMin (a b : Option ℚ) : Option ℚ :=
  match a, b with
  | none, b => b
  | some x, none => some x
  | some x, some y => some (min x y)

/-! ## Data model -/

/-- `UserSchema` (models.js lines 32-48), the fields the core reads. -/
structure User where
  id : Nat
  username : String
  bestTime : Option ℚ
  bestSpeed : Option ℚ
  averageTime : ℚ
  averageSpeed : ℚ
  totalGames : Nat
  totalMultiplayerGames : Nat
  gamesWon : Nat
  currentGame : Option Nat
  deriving DecidableEq, Repr

/-- `GameSchema` (models.js lines 353-376), the fields the core reads. -/
structure Game where
  id : Nat
  exercise : Nat
  isSinglePlayer : Bool
  numPlayers : Nat
  maxPlayers : Nat
  status : Option String
  statusText : Option String
  isJoinable : Bool
  isComplete : Bool
  isViewable : Bool
  starting : Bool
  started : Bool
  startTime : Option Int
  winner : Option Nat
  winnerTime : Option ℚ
  winnerSpeed : Option ℚ
  players : List Nat
  playerNames : List String
  startingPlayers : List Nat
  deriving DecidableEq, Repr

/-- `StatsSchema` (models.js lines 627-636). -/
structure Stats where
  player : Nat
  game : Nat
  time : ℚ
  speed : ℚ
  typeables : ℚ
  keystrokes : ℚ
  percentUnproductive : ℚ
  deriving DecidableEq, Repr

/-! ## Timer registry (`gameTimeouts`, models.js lines 382-399) -/

/-- What a callback armed by `setupTiming` does when it fires. -/
inductive TimerAction where
  /-- Re-fetch the game by id, set `isJoinable = false`, reconcile
  (models.js lines 500-508). -/
  | closeJoin : TimerAction
  /-- Re-fetch the game by id, invoke `start()`, reconcile
  (models.js lines 514-521). -/
  | startGame : TimerAction
  deriving DecidableEq, Repr

/-- The `gameTimeouts` object: at most one pending `(delay, action)` per
game id. -/
def TimerRegistry : Type := List (Nat × Int × TimerAction)

instance : DecidableEq TimerRegistry :=
  inferInstanceAs (DecidableEq (List (Nat × Int × TimerAction)))

/-- `gameTimeouts.create`: clears any pending timeout for the id, then
registers the new one. -/
def TimerRegistry.create (r : TimerRegistry) (gid : Nat) (delay : Int)
    (act : TimerAction) : TimerRegistry :=
  (gid, delay, act) :: r.filter (fun e => e.1 ≠ gid)

/-- `gameTimeouts.remove`: clears any pending timeout for the id. -/
def TimerRegistry.remove (r : TimerRegistry) (gid : Nat) : TimerRegistry :=
  r.filter (fun e => e.1 ≠ gid)

/-! ## Game store and null-dereference semantics -/

/-- The persisted collection of games; `Game.findById` searches it. -/
def GameStore : Type := List Game

/-- `Game.findById`: `none` when no game has the id (the JS callback then
receives `null` with no error). -/
def findGame (s : GameStore) (gid : Nat) : Option Game :=
  s.find? (fun g => g.id = gid)

/-- Outcome of a JS computation that may crash by dereferencing a `null`
entity. -/
inductive JsOutcome (α : Type) where
  | ok : α → JsOutcome α
  /-- A property access on `null` raised a `TypeError`. -/
  | typeError : JsOutcome α
  deriving DecidableEq, Repr

/-- Property access on a possibly-`null` entity: `null.f` raises a
`TypeError`. -/
def jsDeref {α : Type} (x : Option α) : JsOutcome α :=
  match x with
  | none => .typeError
  | some a => .ok a

/-! ## Lobby state machine (GameSchema methods) -/

/-- `setStatus` (models.js lines 529-536). -/
def Game.setStatus (g : Game) (status : String) : Game :=
  let bindings : String → Option String := fun s =>
    if s = "waiting" then some "Waiting"
    else if s = "ingame" then some "In game"
    else none
  { g with status := some status, statusText := bindings status }

/-- `start` (models.js lines 569-575). -/
def Game.start (g : Game) : Game :=
  let g := { g with started := true, startingPlayers := g.players }
  let g := g.setStatus "ingame"
  { g with isJoinable := false }

/-- `finish` (models.js lines 577-583): sets the terminal flags and
removes the game's pending timeout. -/
def Game.finish (g : Game) (r : TimerRegistry) : Game × TimerRegistry :=
  ({ g with isComplete := true, isViewable := false, isJoinable := false },
   r.remove g.id)

/-- `setupTiming` (models.js lines 495-527). `now` is the current clock;
`timeLeft = startTime - now`. The armed callbacks are represented by
`TimerAction`; their bodies are `runTimerAction` below. -/
def Game.setupTiming (now : Int) (g : Game) (r : TimerRegistry) :
    Game × TimerRegistry :=
  let timeLeft := g.startTime.getD 0 - now
  if g.isJoinable then
    if timeLeft > GAME_TIME_JOIN_CUTOFF_MS then
      (g, r.create g.id (timeLeft - GAME_TIME_JOIN_CUTOFF_MS + 1) .closeJoin)
    else
      ({ g with isJoinable := false }, r)
  else
    if timeLeft > 0 then
      (g, r.create g.id (timeLeft + 1) .startGame)
    else
      (g.start, r)

/-- `deduceGameStateSinglePlayer` (models.js lines 460-469). -/
def Game.deduceGameStateSinglePlayer (now : Int) (g : Game)
    (r : TimerRegistry) : Game × TimerRegistry :=
  if !g.started then
    let g := if !g.starting then
        { g with starting := true,
                 startTime := some (now + GAME_SINGLE_PLAYER_WAIT_TIME_MS) }
      else g
    g.setupTiming now r
  else (g, r)

/-- `deduceGameStateMultiPlayer` (models.js lines 471-493). -/
def Game.deduceGameStateMultiPlayer (now : Int) (g : Game)
    (r : TimerRegistry) : Game × TimerRegistry :=
  if !g.started then
    if g.starting then
      if g.numPlayers < 2 then
        ({ g with starting := false, startTime := none, isJoinable := true },
         r.remove g.id)
      else
        g.setupTiming now r
    else
      if g.numPlayers > 1 then
        Game.setupTiming now
          { g with starting := true,
                   startTime := some (now + GAME_MULTI_PLAYER_WAIT_TIME_MS) } r
      else (g, r)
  else (g, r)

/-- `deduceGameState` (models.js lines 443-458): the reconcile step. -/
def Game.deduceGameState (now : Int) (g : Game) (r : TimerRegistry) :
    Game × TimerRegistry :=
  if g.numPlayers = 0 then
    g.finish r
  else
    let g := if g.numPlayers = g.maxPlayers then { g with isJoinable := false }
      else g
    if g.isSinglePlayer then
      g.deduceGameStateSinglePlayer now r
    else
      g.deduceGameStateMultiPlayer now r

/-- Body of a timer callback armed by `setupTiming` once it fires: the
game is re-fetched by id and then mutated and reconciled WITHOUT checking
whether the fetch returned `null` (models.js lines 501-507 and 515-521),
so a missing game is dereferenced. -/
def runTimerAction (now : Int) (s : GameStore) (r : TimerRegistry)
    (gid : Nat) (act : TimerAction) : JsOutcome (Game × TimerRegistry) :=
  match jsDeref (findGame s gid) with
  | .typeError => .typeError
  | .ok g =>
    match act with
    | .closeJoin => .ok (Game.deduceGameState now { g with isJoinable := false } r)
    | .startGame => .ok (Game.deduceGameState now g.start r)

/-- Firing of a pending timeout: `gameTimeouts` deletes the registry
entry before invoking the callback (models.js lines 388-391). -/
def fireTimer (now : Int) (s : GameStore) (r : TimerRegistry) (gid : Nat)
    (act : TimerAction) : JsOutcome (Game × TimerRegistry) :=
  runTimerAction now s (r.remove gid) gid act

/-! ## Membership coordination -/

/-- `getJoinError` (models.js lines 538-550). The unavailability check
comes first; the roster check compares the game's player ids against the
candidate's id; `currentGame` is not consulted. -/
def Game.getJoinError (g : Game) (u : User) : Option String :=
  if !g.isJoinable && !g.isSinglePlayer then
    some "this game is full, or has been removed"
  else if g.players.contains u.id then
    some "you are already inside another game!"
  else
    none

/-- `addPlayer` (models.js lines 552-559): push id and name, increment
the counter, reconcile. -/
def Game.addPlayer (g : Game) (u : User) (now : Int) (r : TimerRegistry) :
    Game × TimerRegistry :=
  Game.deduceGameState now
    { g with players := g.players ++ [u.id],
             playerNames := g.playerNames ++ [u.username],
             numPlayers := g.numPlayers + 1 } r

/-- `removePlayer` (models.js lines 561-567): a mongoose array `remove`
pulls every element equal to the argument; the counter is decremented
with a floor at 0; then reconcile. -/
def Game.removePlayer (g : Game) (u : User) (now : Int) (r : TimerRegistry) :
    Game × TimerRegistry :=
  Game.deduceGameState now
    { g with players := g.players.filter (fun p => p ≠ u.id),
             playerNames := g.playerNames.filter (fun n => n ≠ u.username),
             numPlayers := if g.numPlayers ≤ 0 then 0 else g.numPlayers - 1 } r

/-- `joinGame` (models.js lines 133-156): on success the user's
`currentGame` pointer is set and the player is added (which reconciles
the game). Persistence is assumed to succeed here; its failure modes are
not the subject of any claim about `joinGame`. -/
def User.joinGame (now : Int) (u : User) (g : Game) (r : TimerRegistry) :
    Except String (User × Game × TimerRegistry) :=
  match g.getJoinError u with
  | some e => .error e
  | none =>
    let u := { u with currentGame := some g.id }
    let (g, r) := g.addPlayer u now r
    .ok (u, g, r)

/-- `true` iff an `Except` carries a success. -/
def exceptIsOk {ε α : Type} (e : Except ε α) : Bool :=
  match e with
  | .ok _ => true
  | .error _ => false

/-- `performIngameAction`, `'join'` branch (models.js lines 95-108): the
game is fetched by id and handed to `joinGame` without a null check;
`joinGame` immediately accesses `game.getJoinError`, so a missing game is
dereferenced. -/
def User.performIngameActionJoin (now : Int) (u : User) (s : GameStore)
    (r : TimerRegistry) (gid : Nat) :
    JsOutcome (Except String (User × Game × TimerRegistry)) :=
  match jsDeref (findGame s gid) with
  | .typeError => .typeError
  | .ok g => .ok (u.joinGame now g r)

/-- Outcome of `quitCurrentGame` as seen by its caller. -/
inductive QuitOutcome where
  /-- The completion callback was never invoked. -/
  | noCallback : QuitOutcome
  /-- `callback()` or `callback(null, game)`. -/
  | calledOk : Option Game → QuitOutcome
  | calledErr : String → QuitOutcome
  deriving DecidableEq, Repr

/-- `quitCurrentGame` (models.js lines 179-209): with no current game the
callback is invoked immediately with no arguments; with a current game
the game is fetched by id, and the `if (game)` guard has NO else branch,
so a missing game leaves the user untouched and never invokes the
callback. On the found path the player is removed (which reconciles) and
`currentGame` is cleared. -/
def User.quitCurrentGame (now : Int) (u : User) (s : GameStore)
    (r : TimerRegistry) : User × TimerRegistry × QuitOutcome :=
  match u.currentGame with
  | none => (u, r, .calledOk none)
  | some gid =>
    match findGame s gid with
    | none => (u, r, .noCallback)
    | some g =>
      let (g, r) := g.removePlayer u now r
      ({ u with currentGame := none }, r, .calledOk (some g))

/-! ## Statistics aggregation -/

/-- The numeric finalization inside `StatsSchema.methods.updateStatistics`
(models.js lines 658-668): clamp the reported time to the measured
elapsed time when they differ by more than the threshold, take
`typeables` from the game's exercise, and derive speed and unproductive
percentage. `gameStartTime` is the game's `startTime`. -/
def finalizeStats (now gameStartTime : Int) (typeables : ℚ) (st : Stats) :
    Stats :=
  let realTime : ℚ := ((now - gameStartTime : Int) : ℚ)
  let st := if |realTime - st.time| > STATISTICS_VALIDATION_THRESHOLD_MS then
      { st with time := realTime }
    else st
  let st := { st with typeables := typeables }
  let st := { st with
    speed := (st.typeables / CHARACTERS_PER_WORD) *
             (1 / (st.time / MILLISECONDS_PER_MINUTE)) }
  { st with percentUnproductive := 1 - st.typeables / st.keystrokes }

/-- The winner-update condition of `GameSchema.methods.updateStatistics`
(models.js lines 587-588): `winnerTime !== time` and
`Math.min(winnerTime || Infinity, time || Infinity) === time`. -/
def Game.winnerUpdateCond (g : Game) (st : Stats) : Prop :=
  g.winnerTime ≠ some st.time ∧
  jsMin (orInf g.winnerTime) (orInf (some st.time)) = some st.time

instance (g : Game) (st : Stats) : Decidable (g.winnerUpdateCond st) :=
  inferInstanceAs (Decidable (_ ∧ _))

/-- `GameSchema.methods.updateStatistics` (models.js lines 585-604), the
state change: the winner record is replaced when the condition holds,
otherwise the game is untouched. -/
def Game.updateStatistics (g : Game) (st : Stats) : Game :=
  if g.winnerUpdateCond st then
    { g with winner := some st.player, winnerTime := some st.time,
             winnerSpeed := some st.speed }
  else g

/-- The two JS runtime shapes strictly compared at models.js line 219:
`game.winner` holds a mongoose `ObjectId` (assigned from `stats.player`,
itself a `Schema.ObjectId` field, at line 590) while `user.id` is the
document's string hex virtual. Both are indexed by the id they denote;
`===` between the two shapes never holds, and the source makes this
comparison without the `toHexString` conversion that `getJoinError`
performs for its roster check. -/
inductive JsVal where
  | objectId : Nat → JsVal
  | strVal : Nat → JsVal
  deriving DecidableEq, Repr

/-- `UserSchema.methods.updateStatistics` (models.js lines 211-232), the
state change: `bestTime = Math.min(bestTime || Infinity, time || Infinity)`,
`bestSpeed = Math.max(bestSpeed || 0, speed || 0)` (which equals
`max (bestSpeed.getD 0) speed` over ℚ), the four counters, and the
running averages computed with the already-incremented `totalGames`.
The `gamesWon` guard is `game.winner === user.id` (line 219): an
`ObjectId` strictly compared against the string id virtual with no
conversion, modelled by `JsVal` — it never holds. -/
def User.updateStatistics (u : User) (st : Stats) (g : Game) : User :=
  let bestTime := jsMin (orInf u.bestTime) (orInf (some st.time))
  let bestSpeed := max (u.bestSpeed.getD 0) st.speed
  let totalGames := u.totalGames + 1
  { u with
    bestTime := bestTime,
    bestSpeed := some bestSpeed,
    totalGames := totalGames,
    totalMultiplayerGames :=
      if g.isSinglePlayer then u.totalMultiplayerGames
      else u.totalMultiplayerGames + 1,
    gamesWon :=
      if g.winner.map JsVal.objectId = some (JsVal.strVal u.id) then
        u.gamesWon + 1
      else u.gamesWon,
    averageTime :=
      (u.averageTime * ((totalGames : ℚ) - 1) + st.time) / (totalGames : ℚ),
    averageSpeed :=
      (u.averageSpeed * ((totalGames : ℚ) - 1) + st.speed) / (totalGames : ℚ) }

/-- Failure injection for the three persistence writes of a result
submission. -/
structure SaveFlags where
  statsSaveFails : Bool
  gameSaveFails : Bool
  userSaveFails : Bool
  deriving DecidableEq, Repr

/-- What a result submission reports to its caller. -/
inductive SubmitOutcome where
  | ok : Stats → User → Game → SubmitOutcome
  | err : String → SubmitOutcome
  deriving DecidableEq, Repr

/-- `true` iff a submission reported success. -/
def SubmitOutcome.isOk : SubmitOutcome → Bool
  | .ok _ _ _ => true
  | .err _ => false

/-- `GameSchema.methods.updateStatistics` with its `save` (models.js
lines 585-604): the save happens only on the update path, and its failure
surfaces `'error saving game'`. -/
def Game.updateStatisticsSave (g : Game) (st : Stats) (saveFails : Bool) :
    Except String Game :=
  if g.winnerUpdateCond st then
    if saveFails then .error "error saving game"
    else .ok (g.updateStatistics st)
  else .ok g

/-- `UserSchema.methods.updateStatistics` with its `save` (models.js
lines 225-231): failure surfaces `'error saving user'`. -/
def User.updateStatisticsSave (u : User) (st : Stats) (g : Game)
    (saveFails : Bool) : Except String User :=
  if saveFails then .error "error saving user"
  else .ok (u.updateStatistics st g)

/-- `StatsSchema.methods.updateStatistics` (models.js lines 638-692) on
the path where user, game and exercise are all found: finalize the
numbers, then persist. The result's own `stats.save` callback only LOGS a
failure and the control flow continues regardless (models.js lines
670-674), so `fl.statsSaveFails` cannot influence the outcome; the game
save and the user save propagate their failures through the callback
chain. `exTypeables` is the exercise's `typeables` count. -/
def Stats.updateStatistics (now : Int) (u : User) (g : Game)
    (exTypeables : ℚ) (st : Stats) (fl : SaveFlags) : SubmitOutcome :=
  let st := finalizeStats now (g.startTime.getD 0) exTypeables st
  match g.updateStatisticsSave st fl.gameSaveFails with
  | .error e => .err e
  | .ok g2 =>
    match u.updateStatisticsSave st g2 fl.userSaveFails with
    | .error e => .err e
    | .ok u2 => .ok st u2 g2

/-! ## Specification-side predicates -/

/-- The roster-counter invariant of the specification: `numPlayers` equals
the length of `players` and the length of `playerNames`. -/
def Game.rosterInv (g : Game) : Prop :=
  g.numPlayers = g.players.length ∧ g.numPlayers = g.playerNames.length

instance (g : Game) : Decidable g.rosterInv :=
  inferInstanceAs (Decidable (_ ∧ _))

/-- The amended winner-update condition, in the specification's terms: a
positive result time that beats the prior record, where an unset or zero
`winnerTime` counts as no prior record. -/
def specWinnerUpdate (g : Game) (st : Stats) : Prop :=
  0 < st.time ∧ (g.winnerTime = none ∨ g.winnerTime = some 0 ∨
    ∃ w, g.winnerTime = some w ∧ st.time < w)

/-! ## Concrete entities used by witnesses and counterexamples -/

/-- A fresh player with no history and no current game. -/
def userEx : User :=
  { id := 1, username := "alice", bestTime := none, bestSpeed := none,
    averageTime := 0, averageSpeed := 0, totalGames := 0,
    totalMultiplayerGames := 0, gamesWon := 0, currentGame := none }

/-- A fresh multi-player lobby as `beginMultiPlayer` leaves it: joinable,
viewable, empty roster. -/
def gameEx : Game :=
  { id := 3, exercise := 0, isSinglePlayer := false, numPlayers := 0,
    maxPlayers := GAME_DEFAULT_MAX_PLAYERS, status := some "waiting",
    statusText := some "Waiting", isJoinable := true, isComplete := false,
    isViewable := true, starting := false, started := false,
    startTime := none, winner := none, winnerTime := none,
    winnerSpeed := none, players := [], playerNames := [],
    startingPlayers := [] }

/-- A reported result: 12000 ms, 120 keystrokes (spec section 8 scenario). -/
def statsEx : Stats :=
  { player := 1, game := 3, time := 12000, speed := 0, typeables := 0,
    keystrokes := 120, percentUnproductive := 0 }

/-- A player who already has a current game pointer (to game 99). -/
def userInOther : User := { userEx with currentGame := some 99 }

/-- An unjoinable multi-player lobby. -/
def gameUnavailable : Game := { gameEx with isJoinable := false }

/-- A lobby whose roster holds exactly player 1 / "alice". -/
def gameOneAlice : Game :=
  { gameEx with numPlayers := 1, players := [1], playerNames := ["alice"] }

/-- A player absent from `gameOneAlice`. -/
def userBob : User := { userEx with id := 2, username := "bob" }

/-- A starting multi-player lobby with a start time 10000 ms from clock 0. -/
def gameTiming : Game :=
  { gameEx with
    numPlayers := 2, players := [1, 2],
    playerNames := ["alice", "bob"], starting := true,
    startTime := some 10000 }

/-- An in-game lobby (started at clock 0) holding player 1. -/
def gameStarted : Game :=
  { gameEx with
    numPlayers := 1, players := [1], playerNames := ["alice"],
    starting := true, started := true, startTime := some 0,
    isJoinable := false, status := some "ingame",
    statusText := some "In game" }

/-- A finalized result: time 12000 ms, speed 100 wpm. -/
def statsFinal : Stats := { statsEx with speed := 100, typeables := 100 }

/-- A result reporting a time of 0 ms. -/
def statsZeroTime : Stats := { statsEx with time := 0, speed := 50 }

/-- A player with a prior best time of 100 ms. -/
def userBest100 : User := { userEx with bestTime := some 100 }

/-- A player whose current game pointer references game 7, which is
absent from the store. -/
def userInLost : User := { userEx with currentGame := some 7 }

/-! ## Helper lemmas -/

/-- `setupTiming` never touches the roster or the player counter. -/
theorem setupTiming_membership (now : Int) (g : Game) (r : TimerRegistry) :
    (g.setupTiming now r).1.players = g.players ∧
    (g.setupTiming now r).1.playerNames = g.playerNames ∧
    (g.setupTiming now r).1.numPlayers = g.numPlayers := by
  unfold Game.setupTiming Game.start Game.setStatus
  dsimp only
  split_ifs <;> exact ⟨rfl, rfl, rfl⟩

/-- The reconcile step never touches the roster or the player counter. -/
theorem deduceGameState_membership (now : Int) (g : Game) (r : TimerRegistry) :
    (Game.deduceGameState now g r).1.players = g.players ∧
    (Game.deduceGameState now g r).1.playerNames = g.playerNames ∧
    (Game.deduceGameState now g r).1.numPlayers = g.numPlayers := by
  unfold Game.deduceGameState Game.deduceGameStateSinglePlayer
    Game.deduceGameStateMultiPlayer Game.finish
  dsimp only
  split_ifs <;>
    first
      | exact ⟨rfl, rfl, rfl⟩
      | exact setupTiming_membership now _ r

/-- Removing every occurrence of an element that occurs exactly once
shortens a list by one. -/
theorem length_filter_ne_add_count {α : Type} [DecidableEq α] (l : List α)
    (a : α) :
    (l.filter (fun x => x ≠ a)).length + l.count a = l.length := by
  induction l with
  | nil => simp
  | cons b t ih =>
    simp only [decide_not] at ih
    by_cases hb : b = a
    · subst hb
      simp [List.filter_cons, List.count_cons]
      omega
    · simp [List.filter_cons, List.count_cons, hb]
      omega

/-! ## Claim theorems -/

/-- C3: for every lobby in every prior state, running the reconcile step
(`deduceGameState`) with `numPlayers = 0` yields exactly `finish`: the
lobby becomes `isComplete = true`, `isViewable = false`,
`isJoinable = false`, its pending timer-registry entry is removed, every
other field is unchanged, and the single-player/multi-player dispatch is
not entered. -/
theorem C3_empty_lobby_completes (now : Int) (g : Game) (r : TimerRegistry)
    (h : g.numPlayers = 0) :
    Game.deduceGameState now g r =
      ({ g with isComplete := true, isViewable := false, isJoinable := false },
       r.remove g.id) := by
  unfold Game.deduceGameState Game.finish
  rw [if_pos h]

/-- Witness for C3 at a concrete empty lobby. -/
theorem C3_witness :
    gameEx.numPlayers = 0 ∧
    Game.deduceGameState 0 gameEx ([] : TimerRegistry) =
      ({ gameEx with isComplete := true, isViewable := false,
                     isJoinable := false },
       TimerRegistry.remove [] gameEx.id) :=
  ⟨rfl, C3_empty_lobby_completes 0 gameEx [] rfl⟩

/-- C5: the claim says the timer callbacks and the `performIngameAction`
join branch tolerate a missing lobby as a silent no-op. The code does
not: evaluated at a store that no longer holds the game, each of the two
timer callbacks and the join branch dereferences the `null` fetch result
and raises a `TypeError` instead of no-opping. -/
theorem C5_missing_lobby_crash :
    fireTimer 0 ([] : GameStore) ([] : TimerRegistry) 7 TimerAction.closeJoin =
      JsOutcome.typeError ∧
    fireTimer 0 ([] : GameStore) ([] : TimerRegistry) 7 TimerAction.startGame =
      JsOutcome.typeError ∧
    User.performIngameActionJoin 0 userEx ([] : GameStore)
      ([] : TimerRegistry) 7 = JsOutcome.typeError :=
  ⟨rfl, rfl, rfl⟩

/-- C10: a player whose `currentGame` pointer is set while the referenced
game is absent from the store: `quitCurrentGame` leaves the player (and
the timer registry) untouched and never invokes its completion callback,
reporting neither success nor error. -/
theorem C10_quit_missing_game (now : Int) (u : User) (s : GameStore)
    (r : TimerRegistry) (gid : Nat) (h1 : u.currentGame = some gid)
    (h2 : findGame s gid = none) :
    User.quitCurrentGame now u s r = (u, r, QuitOutcome.noCallback) := by
  simp [User.quitCurrentGame, h1, h2]

/-- Witness for C10: player pointing at the absent game 7. -/
theorem C10_witness :
    User.quitCurrentGame 0 userInLost ([] : GameStore) ([] : TimerRegistry) =
      (userInLost, ([] : TimerRegistry), QuitOutcome.noCallback) :=
  C10_quit_missing_game 0 userInLost [] [] 7 rfl rfl

/-- C1 counterexample: a player whose `currentGame` pointer is set (to
game 99) joins a joinable lobby whose roster does not hold them. The
claim says the join must fail with the AlreadyInGame error; the code's
`getJoinError` never consults `currentGame`, returns no error, and the
join succeeds. -/
theorem C1_counterexample :
    userInOther.currentGame = some 99 ∧
    Game.getJoinError gameEx userInOther = none ∧
    exceptIsOk (User.joinGame 0 userInOther gameEx []) = true :=
  ⟨rfl, rfl, rfl⟩

/-- C1 (amended): `joinGame` fails with the LobbyUnavailable error
whenever the lobby is not joinable and not single-player (this check
comes first and wins even when the player is already in the roster);
otherwise it fails with the AlreadyInGame error exactly when the player's
id is already in the lobby's roster; otherwise it succeeds. The player's
`currentGame` pointer is never consulted. -/
theorem C1_join_error_amended (now : Int) (u : User) (g : Game)
    (r : TimerRegistry) :
    (g.isJoinable = false → g.isSinglePlayer = false →
      g.getJoinError u = some "this game is full, or has been removed") ∧
    ((g.isJoinable = true ∨ g.isSinglePlayer = true) →
      u.id ∈ g.players →
      g.getJoinError u = some "you are already inside another game!") ∧
    ((g.isJoinable = true ∨ g.isSinglePlayer = true) →
      u.id ∉ g.players →
      g.getJoinError u = none ∧ exceptIsOk (u.joinGame now g r) = true) := by
  refine ⟨fun h1 h2 => ?_, fun h1 h2 => ?_, fun h1 h2 => ?_⟩
  · simp [Game.getJoinError, h1, h2]
  · rcases h1 with h | h <;> simp [Game.getJoinError, h, h2]
  · have hg : g.getJoinError u = none := by
      rcases h1 with h | h <;> simp [Game.getJoinError, h, h2]
    exact ⟨hg, by simp [User.joinGame, hg, exceptIsOk]⟩

/-- Witness for C1: the unavailability error on an unjoinable lobby, and
a successful join of a joinable lobby. -/
theorem C1_witness :
    Game.getJoinError gameUnavailable userEx =
      some "this game is full, or has been removed" ∧
    Game.getJoinError gameEx userEx = none :=
  ⟨(C1_join_error_amended 0 userEx gameUnavailable []).1 rfl rfl,
   ((C1_join_error_amended 0 userEx gameEx []).2.2 (Or.inl rfl)
     (by simp [gameEx])).1⟩

/-- C2 counterexample: the counter invariant holds for a lobby rostering
exactly player 1, "alice"; removing the absent player 2, "bob" still
decrements `numPlayers` (to 0) while both sequences keep length 1, so
the invariant is broken, contradicting the claim that removal of an
absent player preserves it. -/
theorem C2_counterexample :
    gameOneAlice.rosterInv ∧
    ¬ (gameOneAlice.removePlayer userBob 0 []).1.rosterInv := by
  refine ⟨⟨rfl, rfl⟩, fun h => ?_⟩
  exact absurd h.1 (by decide)

/-- C2 (amended): after `addPlayer` (with its reconcile) the counter
invariant `numPlayers = |players| = |playerNames|` is preserved; after
`removePlayer` (with its reconcile) it is preserved provided the removed
player's id occurs exactly once in `players` and their username exactly
once in `playerNames`. (Removal of an absent player breaks it: the
counter is decremented while the sequences are unchanged.) -/
theorem C2_roster_counter_amended (now : Int) (g : Game) (u : User)
    (r : TimerRegistry) (hinv : g.rosterInv) :
    (g.addPlayer u now r).1.rosterInv ∧
    (g.players.count u.id = 1 → g.playerNames.count u.username = 1 →
      (g.removePlayer u now r).1.rosterInv) := by
  obtain ⟨h1, h2⟩ := hinv
  constructor
  · obtain ⟨hp, hn, hc⟩ := deduceGameState_membership now
      { g with players := g.players ++ [u.id],
               playerNames := g.playerNames ++ [u.username],
               numPlayers := g.numPlayers + 1 } r
    unfold Game.addPlayer Game.rosterInv
    rw [hp, hn, hc]
    simp only [List.length_append, List.length_cons, List.length_nil]
    omega
  · intro hc1 hc2
    obtain ⟨hp, hn, hc⟩ := deduceGameState_membership now
      { g with players := g.players.filter (fun p => p ≠ u.id),
               playerNames := g.playerNames.filter (fun n => n ≠ u.username),
               numPlayers := if g.numPlayers ≤ 0 then 0
                 else g.numPlayers - 1 } r
    unfold Game.removePlayer Game.rosterInv
    rw [hp, hn, hc]
    have hl1 := length_filter_ne_add_count g.players u.id
    have hl2 := length_filter_ne_add_count g.playerNames u.username
    have hcl : g.players.count u.id ≤ g.players.length :=
      List.count_le_length u.id g.players
    simp only []
    rw [hc1] at hl1
    rw [hc2] at hl2
    constructor
    · split_ifs with hz <;> omega
    · split_ifs with hz <;> omega

/-- Witness for C2: adding bob to alice's lobby, and removing alice
(present exactly once) from it, both preserve the invariant. -/
theorem C2_witness :
    (gameOneAlice.addPlayer userBob 0 []).1.rosterInv ∧
    (gameOneAlice.removePlayer userEx 0 []).1.rosterInv :=
  ⟨(C2_roster_counter_amended 0 gameOneAlice userBob [] ⟨rfl, rfl⟩).1,
   (C2_roster_counter_amended 0 gameOneAlice userEx [] ⟨rfl, rfl⟩).2 rfl rfl⟩

/-- C4 counterexample: a joinable lobby with `startTime = 10000` at clock
0 (remaining 10000 ms). The claim says the close-join timer is scheduled
at delay `remaining - cutoff` = 5000 ms; the code schedules it at
5001 ms (`timeLeft - GAME_TIME_JOIN_CUTOFF_MS + 1`). -/
theorem C4_counterexample :
    (Game.setupTiming 0 gameTiming ([] : TimerRegistry)).2 =
      [(gameTiming.id, 5001, TimerAction.closeJoin)] ∧
    (Game.setupTiming 0 gameTiming ([] : TimerRegistry)).2 ≠
      [(gameTiming.id, 10000 - 0 - GAME_TIME_JOIN_CUTOFF_MS,
        TimerAction.closeJoin)] := by
  refine ⟨rfl, ?_⟩
  decide

/-- C4 (amended): for a lobby with `startTime` set and
`remaining = startTime - now`: if joinable and `remaining` exceeds the
5000 ms cutoff, a close-join timer is scheduled at delay
`remaining - cutoff + 1` (one millisecond past the claimed
`remaining - cutoff`); if joinable and `remaining ≤ cutoff`,
`isJoinable` is cleared immediately with no timer; if not joinable and
`remaining > 0`, a start timer is scheduled at delay `remaining + 1`
(one millisecond past the claimed `remaining`); if not joinable and
`remaining ≤ 0`, `start()` runs immediately. A fired close-join callback
clears `isJoinable` and re-reconciles; a fired start callback invokes
`start()` and re-reconciles (both on the re-fetched game). -/
theorem C4_setupTiming_amended (now st : Int) (g : Game) (r : TimerRegistry)
    (hst : g.startTime = some st) :
    (g.isJoinable = true → st - now > GAME_TIME_JOIN_CUTOFF_MS →
      g.setupTiming now r =
        (g, r.create g.id (st - now - GAME_TIME_JOIN_CUTOFF_MS + 1)
          TimerAction.closeJoin)) ∧
    (g.isJoinable = true → st - now ≤ GAME_TIME_JOIN_CUTOFF_MS →
      g.setupTiming now r = ({ g with isJoinable := false }, r)) ∧
    (g.isJoinable = false → st - now > 0 →
      g.setupTiming now r =
        (g, r.create g.id (st - now + 1) TimerAction.startGame)) ∧
    (g.isJoinable = false → st - now ≤ 0 →
      g.setupTiming now r = (g.start, r)) ∧
    (∀ (s : GameStore) (g2 : Game) (r2 : TimerRegistry),
      findGame s g.id = some g2 →
      fireTimer now s r2 g.id TimerAction.closeJoin =
        JsOutcome.ok (Game.deduceGameState now { g2 with isJoinable := false }
          (r2.remove g.id))) ∧
    (∀ (s : GameStore) (g2 : Game) (r2 : TimerRegistry),
      findGame s g.id = some g2 →
      fireTimer now s r2 g.id TimerAction.startGame =
        JsOutcome.ok (Game.deduceGameState now g2.start (r2.remove g.id))) := by
  refine ⟨fun hj hgt => ?_, fun hj hle => ?_, fun hj hgt => ?_,
          fun hj hle => ?_, fun s g2 r2 hf => ?_, fun s g2 r2 hf => ?_⟩
  · unfold Game.setupTiming
    simp only [hst, Option.getD_some, hj, if_true]
    rw [if_pos hgt]
  · unfold Game.setupTiming
    simp only [hst, Option.getD_some, hj, if_true]
    rw [if_neg (not_lt.mpr hle)]
  · unfold Game.setupTiming
    simp only [hst, Option.getD_some, hj, Bool.false_eq_true, if_false]
    rw [if_pos hgt]
  · unfold Game.setupTiming
    simp only [hst, Option.getD_some, hj, Bool.false_eq_true, if_false]
    rw [if_neg (not_lt.mpr hle)]
  · unfold fireTimer runTimerAction jsDeref
    rw [hf]
  · unfold fireTimer runTimerAction jsDeref
    rw [hf]

/-- Witness for C4: the long-remaining joinable branch (timer at 5001 ms)
and the short-remaining joinable branch (join closed immediately). -/
theorem C4_witness :
    Game.setupTiming 0 gameTiming ([] : TimerRegistry) =
      (gameTiming, TimerRegistry.create [] gameTiming.id
        (10000 - 0 - GAME_TIME_JOIN_CUTOFF_MS + 1) TimerAction.closeJoin) ∧
    Game.setupTiming 9000 gameTiming ([] : TimerRegistry) =
      ({ gameTiming with isJoinable := false }, ([] : TimerRegistry)) :=
  ⟨(C4_setupTiming_amended 0 10000 gameTiming [] rfl).1 rfl (by decide),
   (C4_setupTiming_amended 9000 10000 gameTiming [] rfl).2.1 rfl (by decide)⟩

/-- C6: the finalized result keeps the reported time when it is within
100 ms of the measured elapsed time `now - startTime` and is replaced by
the measured elapsed time otherwise; its speed equals
`(typeables / 5) / (time / 60000)` (with the finalized time); its
unproductive percentage equals `1 - typeables / keystrokes`; and
`typeables` is the count handed over from the lobby's exercise. -/
theorem C6_result_finalization (now gst : Int) (q : ℚ) (st : Stats) :
    (|((now - gst : Int) : ℚ) - st.time| ≤ 100 →
      (finalizeStats now gst q st).time = st.time) ∧
    (|((now - gst : Int) : ℚ) - st.time| > 100 →
      (finalizeStats now gst q st).time = ((now - gst : Int) : ℚ)) ∧
    (finalizeStats now gst q st).typeables = q ∧
    (finalizeStats now gst q st).speed =
      (q / 5) / ((finalizeStats now gst q st).time / 60000) ∧
    (finalizeStats now gst q st).percentUnproductive =
      1 - q / st.keystrokes := by
  unfold finalizeStats STATISTICS_VALIDATION_THRESHOLD_MS CHARACTERS_PER_WORD
    MILLISECONDS_PER_MINUTE
  dsimp only
  split_ifs with h
  · exact ⟨fun hle => absurd h (not_lt.mpr hle), fun _ => rfl, rfl,
      mul_one_div _ _, rfl⟩
  · exact ⟨fun _ => rfl, fun hgt => absurd hgt h, rfl, mul_one_div _ _, rfl⟩

/-- Witness for C6 at the specification's section 8 scenario: typeables
100, reported time 12000 ms, 120 keystrokes, submitted exactly 12000 ms
after the start. -/
theorem C6_witness :
    (finalizeStats 12000 0 100 statsEx).time = 12000 ∧
    (finalizeStats 12000 0 100 statsEx).speed = 100 ∧
    (finalizeStats 12000 0 100 statsEx).percentUnproductive =
      1 - 100 / 120 := by
  have h := C6_result_finalization 12000 0 100 statsEx
  have ht : (finalizeStats 12000 0 100 statsEx).time = 12000 := by
    have := h.1 (by norm_num [statsEx])
    simpa [statsEx] using this
  refine ⟨ht, ?_, ?_⟩
  · have hs := h.2.2.2.1
    rw [ht] at hs
    rw [hs]
    norm_num
  · have hp := h.2.2.2.2
    simpa [statsEx] using hp

/-- C7 counterexample: a result with time 0 submitted to a lobby with no
prior `winnerTime`. The claim says the winner record must be updated;
the code's `stats.time || Infinity` turns the 0 into `Infinity`, the
condition fails, and the lobby is left untouched. -/
theorem C7_counterexample :
    gameEx.winnerTime = none ∧ statsZeroTime.time = 0 ∧
    Game.updateStatistics gameEx statsZeroTime = gameEx := by
  refine ⟨rfl, rfl, ?_⟩
  decide

/-- C7 (amended): for every non-negative result time, the winner record
is replaced by this result's player, time and speed exactly when the
result's time is positive and beats the prior record — where an unset
`winnerTime` and a `winnerTime` of 0 both count as no prior record —
and the lobby is unchanged otherwise. In particular a result time of 0
never updates the record. -/
theorem C7_winner_update_amended (g : Game) (st : Stats)
    (h0 : 0 ≤ st.time) :
    (specWinnerUpdate g st →
      g.updateStatistics st =
        { g with winner := some st.player, winnerTime := some st.time,
                 winnerSpeed := some st.speed }) ∧
    (¬ specWinnerUpdate g st → g.updateStatistics st = g) := by
  have hiff : g.winnerUpdateCond st ↔ specWinnerUpdate g st := by
    unfold Game.winnerUpdateCond specWinnerUpdate
    rcases hw : g.winnerTime with _ | w
    · by_cases ht : st.time = 0
      · simp [ht, orInf, jsMin]
      · have htpos : 0 < st.time := lt_of_le_of_ne h0 (Ne.symm ht)
        simp [orInf, jsMin, ht, htpos]
    · by_cases hz : w = 0
      · subst hz
        by_cases ht : st.time = 0
        · simp [ht, orInf, jsMin]
        · have htpos : 0 < st.time := lt_of_le_of_ne h0 (Ne.symm ht)
          simp [orInf, jsMin, ht, htpos, Ne.symm ht]
      · by_cases ht : st.time = 0
        · simp [ht, orInf, jsMin, hz, Ne.symm hz]
        · have htpos : 0 < st.time := lt_of_le_of_ne h0 (Ne.symm ht)
          simp only [orInf, jsMin, ht, if_false, hz, ne_eq,
            Option.some.injEq, htpos, true_and]
          constructor
          · rintro ⟨hne, hmin⟩
            refine Or.inr (Or.inr ⟨w, rfl, ?_⟩)
            have hle : st.time ≤ w := min_eq_right_iff.mp hmin
            exact lt_of_le_of_ne hle (fun hh => hne hh.symm)
          · rintro (h | h | ⟨w2, hw2, hlt⟩)
            · exact absurd h (by simp)
            · exact absurd h (by simp [hz])
            · subst hw2
              exact ⟨ne_of_gt hlt, min_eq_right (le_of_lt hlt)⟩
  constructor
  · intro hs
    unfold Game.updateStatistics
    rw [if_pos (hiff.mpr hs)]
  · intro hs
    unfold Game.updateStatistics
    rw [if_neg (fun hc => hs (hiff.mp hc))]

/-- Witness for C7: the first finisher (no prior winnerTime, positive
time) becomes the winner. -/
theorem C7_witness :
    Game.updateStatistics gameEx statsFinal =
      { gameEx with winner := some statsFinal.player,
                    winnerTime := some statsFinal.time,
                    winnerSpeed := some statsFinal.speed } :=
  (C7_winner_update_amended gameEx statsFinal
    (by norm_num [statsFinal, statsEx])).1
    ⟨by norm_num [statsFinal, statsEx], Or.inl rfl⟩

/-- C8 counterexample: a result with time 0 submitted by a player whose
best time is 100 ms. The claim says `bestTime` becomes
`min(100, 0) = 0`; the code's `stats.time || Infinity` keeps 100. -/
theorem C8_counterexample :
    statsZeroTime.time = 0 ∧
    (User.updateStatistics userBest100 statsZeroTime gameEx).bestTime =
      some 100 ∧
    (User.updateStatistics userBest100 statsZeroTime gameEx).bestTime ≠
      some (min 100 statsZeroTime.time) := by
  refine ⟨rfl, ?_, ?_⟩ <;> decide

/-- C8 (amended): the lifetime statistics update behaves as claimed for
`bestSpeed = max(previous or 0, speed)`, `totalGames + 1`,
`totalMultiplayerGames + 1` exactly for multi-player lobbies, and the
running averages with the post-increment `totalGames`; but (i) a result
time of 0 is treated as `Infinity` by `bestTime` — for positive result
times `bestTime` is the claimed minimum, while a time of 0 leaves
`bestTime` at its prior value (collapsing a prior 0 to unset) — and
(ii) `gamesWon` is never incremented, winner or not: the guard strictly
compares the winner `ObjectId` against the string id virtual, which is
always false. -/
theorem C8_lifetime_stats_amended (u : User) (st : Stats) (g : Game) :
    (0 < st.time → u.bestTime = none →
      (u.updateStatistics st g).bestTime = some st.time) ∧
    (0 < st.time → ∀ b : ℚ, u.bestTime = some b → 0 < b →
      (u.updateStatistics st g).bestTime = some (min b st.time)) ∧
    (st.time = 0 → (u.updateStatistics st g).bestTime = orInf u.bestTime) ∧
    (u.updateStatistics st g).bestSpeed =
      some (max (u.bestSpeed.getD 0) st.speed) ∧
    (u.updateStatistics st g).totalGames = u.totalGames + 1 ∧
    (g.isSinglePlayer = false →
      (u.updateStatistics st g).totalMultiplayerGames =
        u.totalMultiplayerGames + 1) ∧
    (g.isSinglePlayer = true →
      (u.updateStatistics st g).totalMultiplayerGames =
        u.totalMultiplayerGames) ∧
    (u.updateStatistics st g).gamesWon = u.gamesWon ∧
    (u.updateStatistics st g).averageTime =
      (u.averageTime * (u.totalGames : ℚ) + st.time) /
        ((u.totalGames : ℚ) + 1) ∧
    (u.updateStatistics st g).averageSpeed =
      (u.averageSpeed * (u.totalGames : ℚ) + st.speed) /
        ((u.totalGames : ℚ) + 1) := by
  unfold User.updateStatistics
  dsimp only
  refine ⟨?_, ?_, ?_, rfl, rfl, ?_, ?_, ?_, ?_, ?_⟩
  · intro ht hb
    rw [hb]
    simp [orInf, jsMin, ne_of_gt ht]
  · intro ht b hb hbpos
    rw [hb]
    simp [orInf, jsMin, ne_of_gt ht, ne_of_gt hbpos]
  · intro ht
    rw [ht]
    rcases hx : orInf u.bestTime with _ | x <;> simp [orInf, jsMin, hx]
  · intro h
    simp [h]
  · intro h
    simp [h]
  · rcases g.winner with _ | w <;> simp
  · push_cast
    ring_nf
  · push_cast
    ring_nf

/-- Witness for C8: a fresh player submitting the 12000 ms / 100 wpm
result in a multi-player lobby. -/
theorem C8_witness :
    (User.updateStatistics userEx statsFinal gameEx).bestTime =
      some statsFinal.time ∧
    (User.updateStatistics userEx statsFinal gameEx).totalGames = 1 ∧
    (User.updateStatistics userEx statsFinal gameEx).totalMultiplayerGames =
      1 ∧
    (User.updateStatistics userEx statsFinal gameEx).gamesWon = 0 := by
  have h := C8_lifetime_stats_amended userEx statsFinal gameEx
  refine ⟨h.1 (by norm_num [statsFinal, statsEx]) rfl, ?_, ?_, ?_⟩
  · rw [h.2.2.2.2.1]
    rfl
  · rw [h.2.2.2.2.2.1 rfl]
    rfl
  · rw [h.2.2.2.2.2.2.2.1]
    rfl

/-- The winner-update condition holds for the concrete submission used in
the C9 theorems: first finisher, time 12000 ms, no prior record. -/
theorem gameStarted_winnerCond :
    Game.winnerUpdateCond gameStarted
      (finalizeStats 12000 (gameStarted.startTime.getD 0) 100 statsEx) := by
  have ht : (finalizeStats 12000 (gameStarted.startTime.getD 0) 100
      statsEx).time = 12000 := by
    norm_num [finalizeStats, statsEx, gameStarted, gameEx,
      STATISTICS_VALIDATION_THRESHOLD_MS]
  unfold Game.winnerUpdateCond
  rw [ht]
  constructor
  · simp [gameStarted, gameEx]
  · norm_num [orInf, jsMin, gameStarted, gameEx]

/-- C9 counterexample: the Result save fails (`statsSaveFails = true`)
while the other writes succeed, yet the submission reports success — the
claim that any failing persistence write aborts the submission with a
storage error is false for the Result save, whose error is only logged. -/
theorem C9_counterexample :
    (Stats.updateStatistics 12000 userEx gameStarted 100 statsEx
      ⟨true, false, false⟩).isOk = true := by
  unfold Stats.updateStatistics Game.updateStatisticsSave
    User.updateStatisticsSave
  dsimp only
  rw [if_pos gameStarted_winnerCond]
  rfl

/-- C9 (amended): a failure of the Lobby save (when the winner record is
being updated) or of the Player save aborts the submission with the
corresponding storage error; a failure of the Result save is only logged
and ignored — the outcome is identical whether or not it fails. -/
theorem C9_persistence_amended (now : Int) (u : User) (g : Game) (q : ℚ)
    (st : Stats) (sf gf uf : Bool) :
    (Stats.updateStatistics now u g q st ⟨sf, gf, uf⟩ =
      Stats.updateStatistics now u g q st ⟨!sf, gf, uf⟩) ∧
    (Game.winnerUpdateCond g (finalizeStats now (g.startTime.getD 0) q st) →
      Stats.updateStatistics now u g q st ⟨sf, true, uf⟩ =
        SubmitOutcome.err "error saving game") ∧
    (Stats.updateStatistics now u g q st ⟨sf, false, true⟩ =
      SubmitOutcome.err "error saving user") := by
  refine ⟨rfl, fun hc => ?_, ?_⟩
  · unfold Stats.updateStatistics Game.updateStatisticsSave
    dsimp only
    rw [if_pos hc]
    rfl
  · unfold Stats.updateStatistics Game.updateStatisticsSave
      User.updateStatisticsSave
    dsimp only
    split_ifs <;> first
      | rfl
      | contradiction

/-- Witness for C9: a failing Lobby save surfaces the game storage error;
a failing Player save surfaces the user storage error. -/
theorem C9_witness :
    Stats.updateStatistics 12000 userEx gameStarted 100 statsEx
      ⟨false, true, false⟩ = SubmitOutcome.err "error saving game" ∧
    Stats.updateStatistics 12000 userEx gameStarted 100 statsEx
      ⟨false, false, true⟩ = SubmitOutcome.err "error saving user" :=
  ⟨(C9_persistence_amended 12000 userEx gameStarted 100 statsEx false false
      false).2.1 gameStarted_winnerCond,
   (C9_persistence_amended 12000 userEx gameStarted 100 statsEx false false
      false).2.2⟩

end SwiftCode
